import Mathlib

/-!
Shallow embedding of
`examples/multi_agent_collaboration/sales_advisor_agent/main.py`.

The script is a single linear orchestration: every nontrivial behaviour is a
call into an external library (`Agent`, `SupervisorAgent`, `Task`,
`KnowledgeBasesForAmazonBedrock`).  We embed the script as a function from the
parsed command-line arguments and an environment of external responses to the
list of externally observable events it performs, in program order.  External
nondeterminism (the random uuid, the knowledge-base ids returned by the
helper, the outcome of the supervisor invocation) is supplied by the
environment.  English `description` strings of the tool descriptors and the
wall-clock values printed around the invocation are elided from the events;
everything else (names, parameter lists, flags, branch structure, order of
calls) follows the source line by line.
-/

namespace SalesAdvisor

/-- Parsed command-line arguments, with the fields the argparse block of the
script declares (lines 202-218).  All values are strings, as in argparse. -/
structure Args where
  recreate_agents : String
  company_name : String
  iterations : String
  trace_level : String
  clean_up : String
  deriving DecidableEq, Repr

/-- The defaults of the argparse block: recreate_agents defaults to "true",
clean_up to "false", iterations to "1", trace_level to "core". -/
def defaultArgs : Args :=
  { recreate_agents := "true",
    company_name := "บริษัท กมลโลหะกิจ จำกัด",
    iterations := "1",
    trace_level := "core",
    clean_up := "false" }

/-- Responses of the external world for one run: the AWS region and account
(imported module-level constants), the ids returned by
`create_or_retrieve_knowledge_base`, the helper's `data_bucket_name`, the
uuid produced by `uuid.uuid4()`, and the outcome of
`invoke_with_tasks` (a result string, or a raised exception message). -/
structure Env where
  region : String
  account_id : String
  kb_id : String
  ds_id : String
  data_bucket_name : String
  uuid : String
  invokeOutcome : Except String String
  deriving Repr

/-- One parameter of a tool descriptor: its name, its declared type string and
its `required` flag.  The English `description` string is elided. -/
structure ToolParam where
  name : String
  type : String
  required : Bool
  deriving DecidableEq, Repr

/-- The `definition` dictionary of a tool descriptor (name and parameters;
the English description is elided). -/
structure ToolDefinition where
  name : String
  parameters : List ToolParam
  deriving DecidableEq, Repr

/-- A tool descriptor: the lambda ARN under key `code` plus the definition. -/
structure Tool where
  code : String
  definition : ToolDefinition
  deriving DecidableEq, Repr

/-- The `web_search_tool` dictionary (lines 69-97). -/
def web_search_tool (region account_id : String) : Tool :=
  { code := "arn:aws:lambda:" ++ region ++ ":" ++ account_id ++ ":function:web_search",
    definition :=
      { name := "web_search",
        parameters :=
          [{ name := "search_query", type := "string", required := true },
           { name := "target_website", type := "string", required := false },
           { name := "topic", type := "string", required := false },
           { name := "days", type := "string", required := false }] } }

/-- The `set_value_for_key` dictionary (lines 99-122). -/
def set_value_for_key (region account_id : String) : Tool :=
  { code := "arn:aws:lambda:" ++ region ++ ":" ++ account_id ++ ":function:working_memory",
    definition :=
      { name := "set_value_for_key",
        parameters :=
          [{ name := "key", type := "string", required := true },
           { name := "value", type := "string", required := true },
           { name := "table_name", type := "string", required := true }] } }

/-- The `get_key_value` dictionary (lines 124-142). -/
def get_key_value (region account_id : String) : Tool :=
  { code := "arn:aws:lambda:" ++ region ++ ":" ++ account_id ++ ":function:working_memory",
    definition :=
      { name := "get_key_value",
        parameters :=
          [{ name := "key", type := "string", required := true },
           { name := "table_name", type := "string", required := true }] } }

/-- The tool list passed to each of the three worker agents (lines 147-152). -/
def tool_list (env : Env) : List Tool :=
  [web_search_tool env.region env.account_id,
   set_value_for_key env.region env.account_id,
   get_key_value env.region env.account_id]

/-- Externally observable events of one run, in program order. -/
inductive Event where
  | printLine (s : String)
  | createOrRetrieveKB (kb_name kb_description data_bucket_name : String)
      (bucket_object_prefixs : List String)
  | syncKB
  | setForceRecreateDefault (b : Bool)
  | deleteAgentByName (name : String) (verbose : Bool)
  | deleteKB (kb_name : String) (delete_s3_bucket : Bool)
  | mkTask (name company_name iterations : String)
  | mkAgent (name : String) (tools : List Tool) (force_recreate : Bool)
  | mkSupervisorAgent (name : String) (collaborators : List String)
      (verbose force_recreate : Bool)
  | invokeWithTasks (tasks : List String) (additional_instructions : String)
      (processing_type : String) (enable_trace : Bool) (trace_level : String)
  | printTimeBeforeCall
  | printResult (s : String)
  | printException (msg : String)
  | printTraceback
  | printTimeTaken
  deriving DecidableEq, Repr

/-- `folder_name = "financial-advisor-" + str(uuid.uuid4())` (line 166). -/
def folder_name (u : String) : String := "financial-advisor-" ++ u

/-- The dedented `additional_instructions` f-string (lines 171-178),
as a function of the interpolated `folder_name`. -/
def additional_instructions_text (fn : String) : String :=
  "\nUse a single Working Memory table for this entire set of tasks, with \ntable name: "
    ++ fn
    ++ ". Tell your collaborators this table name as part of \nevery request, so that they are not confused and they share state effectively.\nThe keys they use in that table will allow them to keep track of any number \nof state items they require. When you have completed all tasks, summarize \nyour work, and share the table name so that all the results can be used and \nanalyzed."

/-- The names of the three tasks, in the order they are passed to
`invoke_with_tasks` (lines 167-170). -/
def task_names : List String :=
  ["finacial_extract_all_task", "finacial_get_external_data_task",
   "final_report_output_task"]

/-- The names of the three worker agents, in the order they are passed to the
`SupervisorAgent` constructor (lines 155-158). -/
def worker_names : List String :=
  ["financial_internal_analyst", "financial_external_analyst",
   "formatted_report_writer"]

/-- The event trace of `main(args)` (lines 24-191).  Constructing an `Agent`
or `SupervisorAgent` records the force-recreate default in force at that
point, which `Agent.set_force_recreate_default` has set (lines 44-47); its
help text, "False if reusing existing agents.", documents that under the
default the constructions recreate rather than reuse. -/
def main (args : Args) (env : Env) : List Event :=
  let kb_name := "financial-advisor-kb"
  let acquire : List Event :=
    [.printLine ("Acquiring  " ++ kb_name ++ " knowledge base"),
     .createOrRetrieveKB kb_name
       "Useful for answering questions about customer loaning and for questions about the company annual financial reports"
       "lhbank-ts-dev-curated-2"
       ["kb-sources/Company Data/*.*"],
     .printLine ("KB name: " ++ kb_name ++ ", kb_id: " ++ env.kb_id ++ ", ds_id: "
       ++ env.ds_id ++ ", s3 bucket name: " ++ env.data_bucket_name ++ "\n")]
  let sync : List Event :=
    if args.recreate_agents = "true" then
      [.syncKB, .printLine "KB sync completed\n"]
    else []
  let recreate : List Event :=
    if args.recreate_agents = "false" then
      [.setForceRecreateDefault false]
    else
      [.setForceRecreateDefault true, .deleteAgentByName "financial_advisor" true]
  let force_recreate : Bool := if args.recreate_agents = "false" then false else true
  let rest : List Event :=
    if args.clean_up = "true" then
      [.deleteAgentByName "financial_advisor" true,
       .deleteAgentByName "financial_internal_analyst" true,
       .deleteAgentByName "financial_external_analyst" true,
       .deleteAgentByName "formatted_report_writer" true,
       .deleteKB "financial-advisor-kb" false]
    else
      [.mkTask "finacial_extract_all_task" args.company_name args.iterations,
       .mkTask "finacial_get_external_data_task" args.company_name args.iterations,
       .mkTask "final_report_output_task" args.company_name args.iterations,
       .mkAgent "financial_internal_analyst" (tool_list env) force_recreate,
       .mkAgent "financial_external_analyst" (tool_list env) force_recreate,
       .mkAgent "formatted_report_writer" (tool_list env) force_recreate,
       .printLine "\n\nCreating financial_strategy_agent as a supervisor agent...\n\n",
       .mkSupervisorAgent "financial_advisor" worker_names false force_recreate]
      ++ (if args.recreate_agents = "false" then
            [.printLine "\n\nInvoking supervisor agent...\n\n",
             .printTimeBeforeCall,
             .invokeWithTasks task_names
               (additional_instructions_text (folder_name env.uuid))
               "sequential" true args.trace_level]
            ++ (match env.invokeOutcome with
                | .ok r => [.printResult r]
                | .error e => [.printException e, .printTraceback])
            ++ [.printTimeTaken]
          else
            [.printLine "Recreated agents."])
  acquire ++ sync ++ recreate ++ rest

/-- Names of the agents deleted by `Agent.delete_by_name` calls in a trace. -/
def deletedAgents (tr : List Event) : List String :=
  tr.filterMap fun e => match e with
    | .deleteAgentByName n _ => some n
    | _ => none

/-- The `(kb_name, delete_s3_bucket)` pairs of `delete_kb` calls in a trace. -/
def kbDeletions (tr : List Event) : List (String × Bool) :=
  tr.filterMap fun e => match e with
    | .deleteKB n b => some (n, b)
    | _ => none

/-- Names of knowledge bases passed to `create_or_retrieve_knowledge_base`. -/
def kbCreations (tr : List Event) : List String :=
  tr.filterMap fun e => match e with
    | .createOrRetrieveKB n _ _ _ => some n
    | _ => none

/-- Number of `synchronize_data` calls in a trace. -/
def kbSyncs (tr : List Event) : Nat :=
  (tr.filter fun e => match e with
    | .syncKB => true
    | _ => false).length

/-- Names of the `Task` objects constructed in a trace, in order. -/
def taskConstructions (tr : List Event) : List String :=
  tr.filterMap fun e => match e with
    | .mkTask n _ _ => some n
    | _ => none

/-- `(name, tools)` of the `Agent` constructions in a trace, in order. -/
def agentConstructions (tr : List Event) : List (String × List Tool) :=
  tr.filterMap fun e => match e with
    | .mkAgent n t _ => some (n, t)
    | _ => none

/-- `(name, force_recreate)` of the `Agent` constructions in a trace. -/
def agentRecreateFlags (tr : List Event) : List (String × Bool) :=
  tr.filterMap fun e => match e with
    | .mkAgent n _ b => some (n, b)
    | _ => none

/-- `(name, collaborators)` of the `SupervisorAgent` constructions. -/
def supervisorConstructions (tr : List Event) : List (String × List String) :=
  tr.filterMap fun e => match e with
    | .mkSupervisorAgent n c _ _ => some (n, c)
    | _ => none

/-- The argument tuples of the `invoke_with_tasks` calls in a trace:
task list, additional instructions, processing type, enable_trace,
trace_level. -/
def invocations (tr : List Event) :
    List (List String × String × String × Bool × String) :=
  tr.filterMap fun e => match e with
    | .invokeWithTasks a b c d f => some (a, b, c, d, f)
    | _ => none

/-- The agent-lifecycle events of a trace (deletions by name and
constructions), in order, for before/after reasoning. -/
def lifecycleEvents (tr : List Event) : List Event :=
  tr.filter fun e => match e with
    | .deleteAgentByName _ _ => true
    | .mkAgent _ _ _ => true
    | .mkSupervisorAgent _ _ _ _ => true
    | _ => false

/-- The knowledge-base lifecycle events (create-or-retrieve and delete)
of a trace, in order. -/
def kbLifecycleEvents (tr : List Event) : List Event :=
  tr.filter fun e => match e with
    | .createOrRetrieveKB _ _ _ _ => true
    | .deleteKB _ _ => true
    | _ => false

/- Concrete sample arguments and environments used by witnesses and
counterexamples. -/

/-- A run with existing agents: `--recreate_agents false`. -/
def argsRun : Args := { defaultArgs with recreate_agents := "false" }

/-- A cleanup run: `--clean_up true`. -/
def argsCleanup : Args := { defaultArgs with clean_up := "true" }

/-- A run with a flag value that is neither "true" nor "false". -/
def argsWeird : Args := { defaultArgs with recreate_agents := "True" }

/-- A sample environment whose invocation succeeds. -/
def envA : Env :=
  { region := "us-east-1", account_id := "123456789012", kb_id := "KB123",
    ds_id := "DS456", data_bucket_name := "bucket-a", uuid := "u-1",
    invokeOutcome := .ok "report text" }

/-- A sample environment whose invocation raises. -/
def envErr : Env := { envA with invokeOutcome := .error "boom" }

/-- A sample environment with a different uuid. -/
def envB : Env := { envA with uuid := "u-2" }

/-- Middle factors of string concatenations with equal outer factors are
equal. -/
lemma string_append_inj_mid {p s u v : String}
    (h : p ++ u ++ s = p ++ v ++ s) : u = v := by
  obtain ⟨lp⟩ := p; obtain ⟨ls⟩ := s; obtain ⟨lu⟩ := u; obtain ⟨lv⟩ := v
  have hd : lp ++ lu ++ ls = lp ++ lv ++ ls := congrArg String.data h
  exact congrArg String.mk (by simpa using hd)

/-- Distinct uuids give distinct `folder_name`s. -/
lemma folder_name_inj {u v : String} (h : folder_name u = folder_name v) :
    u = v := by
  obtain ⟨lu⟩ := u; obtain ⟨lv⟩ := v
  have hd : "financial-advisor-".data ++ lu = "financial-advisor-".data ++ lv :=
    congrArg String.data h
  exact congrArg String.mk (by simpa using hd)

/-- Claim C1: on a run that reaches the supervisor invocation (clean_up not
"true", recreate_agents "false"), if the invocation raises, the exception is
caught: its message and a traceback are printed, execution continues, the
elapsed-time line is still printed, and the trace ends normally with that
elapsed-time line instead of propagating the exception. -/
theorem C1_exception_swallowed_time_reported (args : Args) (env : Env)
    (msg : String) (h1 : args.clean_up ≠ "true")
    (h2 : args.recreate_agents = "false")
    (h3 : env.invokeOutcome = .error msg) :
    invocations (main args env) ≠ [] ∧
    Event.printException msg ∈ main args env ∧
    Event.printTraceback ∈ main args env ∧
    (main args env).getLast? = some Event.printTimeTaken := by
  simp [main, invocations, h1, h2, h3]

/-- Witness for C1 at a concrete failing run. -/
theorem C1_exception_swallowed_time_reported_witness :
    argsRun.clean_up ≠ "true" ∧ argsRun.recreate_agents = "false" ∧
    envErr.invokeOutcome = .error "boom" ∧
    (invocations (main argsRun envErr) ≠ [] ∧
     Event.printException "boom" ∈ main argsRun envErr ∧
     Event.printTraceback ∈ main argsRun envErr ∧
     (main argsRun envErr).getLast? = some Event.printTimeTaken) :=
  ⟨by decide, by decide, rfl,
   C1_exception_swallowed_time_reported argsRun envErr "boom"
     (by decide) (by decide) rfl⟩

/-- Claim C2: with clean_up = "true" the script deletes exactly the four
named agents and the knowledge base "financial-advisor-kb" (with no bucket
deletion), and on that path constructs no task, no agent, no supervisor, and
performs no supervisor invocation. -/
theorem C2_cleanup_deletes_four_agents_and_kb (args : Args) (env : Env)
    (h : args.clean_up = "true") :
    (∀ n, n ∈ deletedAgents (main args env) ↔
      n ∈ ["financial_advisor", "financial_internal_analyst",
           "financial_external_analyst", "formatted_report_writer"]) ∧
    kbDeletions (main args env) = [("financial-advisor-kb", false)] ∧
    taskConstructions (main args env) = [] ∧
    agentConstructions (main args env) = [] ∧
    supervisorConstructions (main args env) = [] ∧
    invocations (main args env) = [] := by
  rcases eq_or_ne args.recreate_agents "true" with h3 | h3
  · simp [main, deletedAgents, kbDeletions, taskConstructions, agentConstructions,
      supervisorConstructions, invocations, h, h3]
  · rcases eq_or_ne args.recreate_agents "false" with h1 | h1 <;>
    simp [main, deletedAgents, kbDeletions, taskConstructions, agentConstructions,
      supervisorConstructions, invocations, h, h1, h3]

/-- Witness for C2 at a concrete cleanup run. -/
theorem C2_cleanup_deletes_four_agents_and_kb_witness :
    argsCleanup.clean_up = "true" ∧
    ((∀ n, n ∈ deletedAgents (main argsCleanup envA) ↔
       n ∈ ["financial_advisor", "financial_internal_analyst",
            "financial_external_analyst", "formatted_report_writer"]) ∧
     kbDeletions (main argsCleanup envA) = [("financial-advisor-kb", false)] ∧
     taskConstructions (main argsCleanup envA) = [] ∧
     agentConstructions (main argsCleanup envA) = [] ∧
     supervisorConstructions (main argsCleanup envA) = [] ∧
     invocations (main argsCleanup envA) = []) :=
  ⟨rfl, C2_cleanup_deletes_four_agents_and_kb argsCleanup envA rfl⟩

/-- Claim C3 counterexample: with the default flags (recreate_agents "true",
clean_up "false") the three worker agents are all constructed with the
force-recreate default set to true — i.e. they are freshly recreated, not
reused — refuting "no agent other than the supervisor is recreated (the
three worker agents are not deleted or freshly recreated)". -/
theorem C3_workers_also_recreated_cex :
    defaultArgs.recreate_agents = "true" ∧ defaultArgs.clean_up = "false" ∧
    agentRecreateFlags (main defaultArgs envA) =
      [("financial_internal_analyst", true), ("financial_external_analyst", true),
       ("formatted_report_writer", true)] ∧
    ("financial_internal_analyst", false) ∉ agentRecreateFlags (main defaultArgs envA) := by
  decide

/-- Claim C3 (amended): when recreate_agents requests recreation (value not
"false") on the non-cleanup path, the script deletes only the supervisor
"financial_advisor" by name, before any agent is built; but the force-recreate
default it sets applies to every construction, so the three workers and the
supervisor are all constructed with force-recreate true. -/
theorem C3_recreate_deletes_only_supervisor_all_forced (args : Args) (env : Env)
    (h1 : args.recreate_agents ≠ "false") (h2 : args.clean_up ≠ "true") :
    lifecycleEvents (main args env) =
      [.deleteAgentByName "financial_advisor" true,
       .mkAgent "financial_internal_analyst" (tool_list env) true,
       .mkAgent "financial_external_analyst" (tool_list env) true,
       .mkAgent "formatted_report_writer" (tool_list env) true,
       .mkSupervisorAgent "financial_advisor" worker_names false true] := by
  rcases eq_or_ne args.recreate_agents "true" with h3 | h3 <;>
    simp [main, lifecycleEvents, h1, h2, h3]

/-- Witness for the amended C3 at a concrete recreate run. -/
theorem C3_recreate_deletes_only_supervisor_all_forced_witness :
    defaultArgs.recreate_agents ≠ "false" ∧ defaultArgs.clean_up ≠ "true" ∧
    lifecycleEvents (main defaultArgs envA) =
      [.deleteAgentByName "financial_advisor" true,
       .mkAgent "financial_internal_analyst" (tool_list envA) true,
       .mkAgent "financial_external_analyst" (tool_list envA) true,
       .mkAgent "formatted_report_writer" (tool_list envA) true,
       .mkSupervisorAgent "financial_advisor" worker_names false true] :=
  ⟨by decide, by decide,
   C3_recreate_deletes_only_supervisor_all_forced defaultArgs envA
     (by decide) (by decide)⟩

/-- Claim C4 counterexample: on the cleanup path the script does first
ensure the knowledge base exists — the `create_or_retrieve_knowledge_base`
call happens unconditionally, before the deletion — refuting "when --clean_up
equals 'true' the script only deletes resources and does not first ensure the
knowledge base exists". -/
theorem C4_kb_ensured_on_cleanup_path_cex :
    argsCleanup.clean_up = "true" ∧
    kbCreations (main argsCleanup envA) ≠ [] ∧
    kbLifecycleEvents (main argsCleanup envA) =
      [.createOrRetrieveKB "financial-advisor-kb"
        "Useful for answering questions about customer loaning and for questions about the company annual financial reports"
        "lhbank-ts-dev-curated-2" ["kb-sources/Company Data/*.*"],
       .deleteKB "financial-advisor-kb" false] := by
  decide

/-- Claim C4 (amended): the knowledge-base create-or-retrieve step is
performed unconditionally at the start of every run; in particular when
clean_up = "true" the script first ensures the knowledge base exists and then
deletes it. -/
theorem C4_kb_create_or_retrieve_unconditional (args : Args) (env : Env) :
    kbCreations (main args env) = ["financial-advisor-kb"] ∧
    (args.clean_up = "true" →
      kbLifecycleEvents (main args env) =
        [.createOrRetrieveKB "financial-advisor-kb"
          "Useful for answering questions about customer loaning and for questions about the company annual financial reports"
          "lhbank-ts-dev-curated-2" ["kb-sources/Company Data/*.*"],
         .deleteKB "financial-advisor-kb" false]) := by
  rcases eq_or_ne args.recreate_agents "true" with h3 | h3 <;>
    rcases eq_or_ne args.recreate_agents "false" with h1 | h1 <;>
    rcases eq_or_ne args.clean_up "true" with h2 | h2 <;>
    first
    | (exact absurd (h1 ▸ h3) (by decide))
    | (rcases henv : env.invokeOutcome with r | r <;>
        simp [main, kbCreations, kbLifecycleEvents, h1, h2, h3, henv])

/-- Witness for the amended C4 at a concrete cleanup run. -/
theorem C4_kb_create_or_retrieve_unconditional_witness :
    argsCleanup.clean_up = "true" ∧
    kbCreations (main argsCleanup envA) = ["financial-advisor-kb"] ∧
    kbLifecycleEvents (main argsCleanup envA) =
      [.createOrRetrieveKB "financial-advisor-kb"
        "Useful for answering questions about customer loaning and for questions about the company annual financial reports"
        "lhbank-ts-dev-curated-2" ["kb-sources/Company Data/*.*"],
       .deleteKB "financial-advisor-kb" false] :=
  ⟨rfl, (C4_kb_create_or_retrieve_unconditional argsCleanup envA).1,
   (C4_kb_create_or_retrieve_unconditional argsCleanup envA).2 rfl⟩

/-- Claim C5: with clean_up not "true" and recreate_agents "false" the
supervisor is invoked exactly once, with exactly the three tasks
finacial_extract_all_task, finacial_get_external_data_task,
final_report_output_task in that order, processing_type "sequential",
enable_trace true and the trace level of the arguments; with recreate_agents
not "false" (recreate-only mode) the supervisor is never invoked. -/
theorem C5_supervisor_invoked_once_sequential (args : Args) (env : Env)
    (h1 : args.clean_up ≠ "true") :
    (args.recreate_agents = "false" →
      invocations (main args env) =
        [(task_names, additional_instructions_text (folder_name env.uuid),
          "sequential", true, args.trace_level)]) ∧
    (args.recreate_agents ≠ "false" → invocations (main args env) = []) := by
  constructor
  · intro h2
    rcases henv : env.invokeOutcome with r | r <;>
      simp [main, invocations, h1, h2, henv]
  · intro h2
    rcases eq_or_ne args.recreate_agents "true" with h3 | h3 <;>
      simp [main, invocations, h1, h2, h3]

/-- Witness for C5: a concrete normal run has the single sequential
invocation, and a concrete recreate-only run has none. -/
theorem C5_supervisor_invoked_once_sequential_witness :
    argsRun.clean_up ≠ "true" ∧ argsRun.recreate_agents = "false" ∧
    invocations (main argsRun envA) =
      [(task_names, additional_instructions_text (folder_name envA.uuid),
        "sequential", true, argsRun.trace_level)] ∧
    argsWeird.clean_up ≠ "true" ∧ argsWeird.recreate_agents ≠ "false" ∧
    invocations (main argsWeird envA) = [] :=
  ⟨by decide, by decide,
   (C5_supervisor_invoked_once_sequential argsRun envA (by decide)).1 (by decide),
   by decide, by decide,
   (C5_supervisor_invoked_once_sequential argsWeird envA (by decide)).2 (by decide)⟩

/-- Claim C6: the working-memory table name embedded in the
additional-instructions text of the invocation is "financial-advisor-"
followed by the uuid freshly generated for that run; no identifier is carried
over between runs, so a run whose environment supplies a different uuid
passes different invocation arguments. -/
theorem C6_fresh_table_name_per_run (args : Args) (env : Env)
    (h1 : args.clean_up ≠ "true") (h2 : args.recreate_agents = "false") :
    invocations (main args env) =
      [(task_names, additional_instructions_text (folder_name env.uuid),
        "sequential", true, args.trace_level)] ∧
    (∀ env2 : Env, env2.uuid ≠ env.uuid →
      invocations (main args env2) ≠ invocations (main args env)) := by
  have einv : ∀ e : Env, invocations (main args e) =
      [(task_names, additional_instructions_text (folder_name e.uuid),
        "sequential", true, args.trace_level)] := by
    intro e
    rcases henv : e.invokeOutcome with r | r <;>
      simp [main, invocations, h1, h2, henv]
  refine ⟨einv env, fun env2 hu hcontra => hu ?_⟩
  rw [einv env2, einv env] at hcontra
  simp only [List.cons.injEq, Prod.mk.injEq, and_true, true_and] at hcontra
  exact folder_name_inj (string_append_inj_mid hcontra)

/-- Witness for C6 at two concrete runs with distinct uuids. -/
theorem C6_fresh_table_name_per_run_witness :
    argsRun.clean_up ≠ "true" ∧ argsRun.recreate_agents = "false" ∧
    envB.uuid ≠ envA.uuid ∧
    invocations (main argsRun envA) =
      [(task_names, additional_instructions_text (folder_name envA.uuid),
        "sequential", true, argsRun.trace_level)] ∧
    invocations (main argsRun envB) ≠ invocations (main argsRun envA) :=
  ⟨by decide, by decide, by decide,
   (C6_fresh_table_name_per_run argsRun envA (by decide) (by decide)).1,
   (C6_fresh_table_name_per_run argsRun envA (by decide) (by decide)).2 envB
     (by decide)⟩

/-- Claim C7: on the non-cleanup path exactly three worker agents are
constructed, each with the same three tool descriptors (web_search,
set_value_for_key, get_key_value), and exactly one supervisor agent is
constructed, over exactly those three workers. -/
theorem C7_three_workers_one_supervisor_fixed_tools (args : Args) (env : Env)
    (h2 : args.clean_up ≠ "true") :
    agentConstructions (main args env) =
      [("financial_internal_analyst", tool_list env),
       ("financial_external_analyst", tool_list env),
       ("formatted_report_writer", tool_list env)] ∧
    supervisorConstructions (main args env) =
      [("financial_advisor", worker_names)] ∧
    (tool_list env).map (fun t => t.definition.name) =
      ["web_search", "set_value_for_key", "get_key_value"] := by
  rcases eq_or_ne args.recreate_agents "true" with h3 | h3 <;>
    rcases eq_or_ne args.recreate_agents "false" with h1 | h1 <;>
    first
    | (exact absurd (h1 ▸ h3) (by decide))
    | (rcases henv : env.invokeOutcome with r | r <;>
        simp [main, agentConstructions, supervisorConstructions, tool_list,
          web_search_tool, set_value_for_key, get_key_value, h1, h2, h3, henv])

/-- Witness for C7 at a concrete non-cleanup run. -/
theorem C7_three_workers_one_supervisor_fixed_tools_witness :
    defaultArgs.clean_up ≠ "true" ∧
    (agentConstructions (main defaultArgs envA) =
       [("financial_internal_analyst", tool_list envA),
        ("financial_external_analyst", tool_list envA),
        ("formatted_report_writer", tool_list envA)] ∧
     supervisorConstructions (main defaultArgs envA) =
       [("financial_advisor", worker_names)] ∧
     (tool_list envA).map (fun t => t.definition.name) =
       ["web_search", "set_value_for_key", "get_key_value"]) :=
  ⟨by decide,
   C7_three_workers_one_supervisor_fixed_tools defaultArgs envA (by decide)⟩

/-- Claim C8: flag values are compared by exact string equality: for any
recreate_agents value other than "true" and other than "false" the script
performs no knowledge-base synchronization, forces recreation, deletes the
supervisor by name, and never invokes the supervisor; and any clean_up value
other than exactly "true" takes the non-cleanup path (no knowledge-base
deletion, the three tasks are constructed). -/
theorem C8_flag_comparison_exact_string (args : Args) (env : Env) :
    ((args.recreate_agents ≠ "true" ∧ args.recreate_agents ≠ "false") →
      kbSyncs (main args env) = 0 ∧
      Event.setForceRecreateDefault true ∈ main args env ∧
      Event.deleteAgentByName "financial_advisor" true ∈ main args env ∧
      invocations (main args env) = []) ∧
    (args.clean_up ≠ "true" →
      kbDeletions (main args env) = [] ∧
      taskConstructions (main args env) = task_names) := by
  constructor
  · rintro ⟨h3, h1⟩
    rcases eq_or_ne args.clean_up "true" with h2 | h2 <;>
      simp [main, kbSyncs, invocations, h1, h2, h3]
  · intro h2
    rcases eq_or_ne args.recreate_agents "true" with h3 | h3 <;>
      rcases eq_or_ne args.recreate_agents "false" with h1 | h1 <;>
      first
      | (exact absurd (h1 ▸ h3) (by decide))
      | (rcases henv : env.invokeOutcome with r | r <;>
          simp [main, kbDeletions, taskConstructions, task_names, h1, h2, h3, henv])

/-- Witness for C8 at the flag value "True". -/
theorem C8_flag_comparison_exact_string_witness :
    (argsWeird.recreate_agents ≠ "true" ∧ argsWeird.recreate_agents ≠ "false") ∧
    argsWeird.clean_up ≠ "true" ∧
    (kbSyncs (main argsWeird envA) = 0 ∧
     Event.setForceRecreateDefault true ∈ main argsWeird envA ∧
     Event.deleteAgentByName "financial_advisor" true ∈ main argsWeird envA ∧
     invocations (main argsWeird envA) = []) ∧
    (kbDeletions (main argsWeird envA) = [] ∧
     taskConstructions (main argsWeird envA) = task_names) :=
  ⟨⟨by decide, by decide⟩, by decide,
   (C8_flag_comparison_exact_string argsWeird envA).1 ⟨by decide, by decide⟩,
   (C8_flag_comparison_exact_string argsWeird envA).2 (by decide)⟩

/-- Claim C9: a run with no command-line flags (the argparse defaults:
recreate_agents "true", clean_up "false") synchronizes the knowledge base,
recreates the agents, prints "Recreated agents.", never invokes the
supervisor, and never prints an elapsed-time line. -/
theorem C9_default_run_recreate_only (env : Env) :
    kbSyncs (main defaultArgs env) = 1 ∧
    Event.printLine "Recreated agents." ∈ main defaultArgs env ∧
    agentRecreateFlags (main defaultArgs env) =
      [("financial_internal_analyst", true), ("financial_external_analyst", true),
       ("formatted_report_writer", true)] ∧
    invocations (main defaultArgs env) = [] ∧
    Event.printTimeTaken ∉ main defaultArgs env := by
  simp [main, defaultArgs, kbSyncs, agentRecreateFlags, invocations]

/-- Claim C10: on the cleanup path the knowledge-base deletion is requested
with delete_s3_bucket = false, and no knowledge-base deletion in the run
requests bucket deletion: cleanup leaves the storage bucket alone. -/
theorem C10_cleanup_preserves_s3_bucket (args : Args) (env : Env)
    (h2 : args.clean_up = "true") :
    kbDeletions (main args env) = [("financial-advisor-kb", false)] ∧
    (∀ n b, Event.deleteKB n b ∈ main args env → b = false) := by
  rcases eq_or_ne args.recreate_agents "true" with h3 | h3 <;>
    rcases eq_or_ne args.recreate_agents "false" with h1 | h1 <;>
    first
    | (exact absurd (h1 ▸ h3) (by decide))
    | (constructor <;> simp [main, kbDeletions, h1, h2, h3])

/-- Witness for C10 at a concrete cleanup run. -/
theorem C10_cleanup_preserves_s3_bucket_witness :
    argsCleanup.clean_up = "true" ∧
    kbDeletions (main argsCleanup envA) = [("financial-advisor-kb", false)] ∧
    Event.deleteKB "financial-advisor-kb" false ∈ main argsCleanup envA ∧
    false = false :=
  ⟨rfl, (C10_cleanup_preserves_s3_bucket argsCleanup envA rfl).1, by decide,
   (C10_cleanup_preserves_s3_bucket argsCleanup envA rfl).2
     "financial-advisor-kb" false (by decide)⟩

end SalesAdvisor
